import Mathlib

/-!
Verification of the build-time image optimization cache module
(`getCacheKey`, `optimizeImage`, `getOptimizedHeroImage`,
`getOptimizedCardImage`, `isValidImagePath`).

The module is embedded shallowly: the global mutable `Map` cache becomes an
explicit association list threaded through the functions, the external
`getImage` transcoding capability becomes a function parameter returning
`Except` (a thrown failure is `Except.error`), and `console.warn` /
`console.error` emissions together with capability invocations are counted in
the returned outcome.  JavaScript falsiness of `number | undefined` values
(`undefined` and `0` are falsy) is modelled explicitly on `Option Nat`.
-/

set_option autoImplicit false

namespace ImageOpt

/-- Imported asset metadata (the `ImageMetadata` shape used by the module:
a resolved `src` string plus intrinsic dimensions). -/
structure ImageMetadata where
  src : String
  width : Nat
  height : Nat
  deriving DecidableEq, Repr

/-- A request source: either a string path/URL or an asset-metadata handle
(the module branches on `typeof src === 'string'`). -/
inductive ImageSrc where
  | str (s : String)
  | meta (m : ImageMetadata)
  deriving DecidableEq, Repr

/-- The allowed values of the `format` option. -/
inductive ImageFormat where
  | avif
  | webp
  | png
  | jpg
  | jpeg
  deriving DecidableEq, Repr

/-- The string each format renders as in a template literal. -/
def formatStr : ImageFormat → String
  | .avif => "avif"
  | .webp => "webp"
  | .png => "png"
  | .jpg => "jpg"
  | .jpeg => "jpeg"

/-- Request options (`OptimizeImageOptions`): src plus optional width, height, format, quality and alt. -/
structure OptimizeImageOptions where
  src : ImageSrc
  width : Option Nat := none
  height : Option Nat := none
  format : Option ImageFormat := none
  quality : Option Nat := none
  alt : Option String := none
  deriving DecidableEq, Repr

/-- JavaScript falsiness for a `number | undefined` value:
`undefined` and `0` are falsy. -/
def jsFalsy : Option Nat → Bool
  | none => true
  | some n => n == 0

/-- JavaScript `x || d` for `x : number | undefined`: the default is taken
when `x` is `undefined` or `0`. -/
def jsOr (n : Option Nat) (d : Nat) : Nat :=
  match n with
  | none => d
  | some k => if k == 0 then d else k

/-- The token a `number | undefined` option contributes to the cache key:
`width || 'auto'` inside a template literal. -/
def natToken (n : Option Nat) : String :=
  match n with
  | none => "auto"
  | some k => if k == 0 then "auto" else toString k

/-- The token the `format` option contributes to the cache key
(`format || 'auto'`). -/
def formatToken : Option ImageFormat → String
  | none => "auto"
  | some f => formatStr f

/-- JavaScript `String.prototype.startsWith`, as a structural prefix test on
the character list of the string. -/
def strStartsWith (s pre : String) : Bool := pre.data.isPrefixOf s.data

/-- Normalized source identifier used in the cache key:
the expression typeof src === 'string' ? src : src.src. -/
def srcString : ImageSrc → String
  | .str s => s
  | .meta m => m.src

/-- Key generation (`getCacheKey`): the template literal
src-width-height-format-quality with `auto` for unset (falsy) fields. -/
def getCacheKey (options : OptimizeImageOptions) : String :=
  srcString options.src ++ "-" ++ natToken options.width ++ "-"
    ++ natToken options.height ++ "-" ++ formatToken options.format ++ "-"
    ++ natToken options.quality

/-- The `srcSet` component of a `GetImageResult`. -/
structure SrcSet where
  values : List String
  /-- Source field name: `attribute`. -/
  attr : String
  deriving DecidableEq, Repr

/-- Rendered dimensions (the `attributes` component of a result). -/
structure ImgDims where
  width : Nat
  height : Nat
  deriving DecidableEq, Repr

/-- The request echo stored in a result's `options` / `rawOptions`. -/
structure ImgOptions where
  src : ImageSrc
  width : Nat
  height : Nat
  deriving DecidableEq, Repr

/-- Result record (`GetImageResult`): the unit of value stored in the cache. -/
structure GetImageResult where
  src : String
  attributes : ImgDims
  options : ImgOptions
  rawOptions : ImgOptions
  srcSet : SrcSet
  deriving DecidableEq, Repr

/-- The argument record the module passes to the external `getImage`
transcoding capability. -/
structure TranscodeArgs where
  src : ImageSrc
  width : Option Nat
  height : Option Nat
  format : ImageFormat
  quality : Nat
  deriving DecidableEq, Repr

/-- The external transcoding capability, as a black box: it either returns an
encoded asset descriptor or throws. -/
abbrev TranscodeFn : Type := TranscodeArgs → Except String GetImageResult

/-- The module-level `imageCache` map, as an association list. -/
abbrev Cache : Type := List (String × GetImageResult)

/-- Lookup (`imageCache.get` / `imageCache.has`): first entry with the given key. -/
def cacheLookup (c : Cache) (k : String) : Option GetImageResult :=
  match c with
  | [] => none
  | (k₁, v₁) :: rest => if k₁ = k then some v₁ else cacheLookup rest k

/-- Insertion (`imageCache.set`): in the module the key being written is always absent,
so prepending gives the same lookup behaviour as `Map.set`. -/
def cacheSet (c : Cache) (k : String) (v : GetImageResult) : Cache :=
  (k, v) :: c

/-- The mock result the module builds for a remote URL (dimensions
`width || 1200`, `height || 630`, empty source-set). -/
def remoteMockResult (src : String) (width height : Option Nat) : GetImageResult :=
  { src := src
    attributes := ⟨jsOr width 1200, jsOr height 630⟩
    options := ⟨.str src, jsOr width 1200, jsOr height 630⟩
    rawOptions := ⟨.str src, jsOr width 1200, jsOr height 630⟩
    srcSet := ⟨[], ""⟩ }

/-- The unoptimized result the module builds for a public-folder path with
missing dimensions (same shape as the remote mock in the source). -/
def unoptimizedResult (src : String) (width height : Option Nat) : GetImageResult :=
  { src := src
    attributes := ⟨jsOr width 1200, jsOr height 630⟩
    options := ⟨.str src, jsOr width 1200, jsOr height 630⟩
    rawOptions := ⟨.str src, jsOr width 1200, jsOr height 630⟩
    srcSet := ⟨[], ""⟩ }

/-- The fallback result built in the `catch` of the string-path branch.  On
that branch `width` and `height` are truthy numbers, so `getD 0` is the
identity on the values actually reaching this constructor. -/
def stringFallbackResult (src : String) (width height : Option Nat) : GetImageResult :=
  { src := src
    attributes := ⟨width.getD 0, height.getD 0⟩
    options := ⟨.str src, width.getD 0, height.getD 0⟩
    rawOptions := ⟨.str src, width.getD 0, height.getD 0⟩
    srcSet := ⟨[], ""⟩ }

/-- The fallback result built in the `catch` of the asset-metadata branch
(dimensions `width || metadata.width`, `height || metadata.height`;
`options.src` echoes the metadata handle). -/
def metaFallbackResult (m : ImageMetadata) (width height : Option Nat) : GetImageResult :=
  { src := m.src
    attributes := ⟨jsOr width m.width, jsOr height m.height⟩
    options := ⟨.meta m, jsOr width m.width, jsOr height m.height⟩
    rawOptions := ⟨.meta m, jsOr width m.width, jsOr height m.height⟩
    srcSet := ⟨[], ""⟩ }

/-- The observable outcome of one `optimizeImage` call: the returned result,
the cache afterwards, and the number of warnings, error logs and capability
invocations the call performed. -/
structure OptimizeOutcome where
  result : GetImageResult
  cache : Cache
  warns : Nat
  errs : Nat
  calls : Nat
  deriving DecidableEq, Repr

/-- Main operation (`optimizeImage`): cache lookup, then classification of the source
(remote URL / local path without dimensions / local path with dimensions /
asset metadata), invoking the transcoding capability where the source does
and catching its failures.  The `Except` return mirrors the async function:
an uncaught throw would surface as `Except.error`. -/
def optimizeImage (t : TranscodeFn) (options : OptimizeImageOptions)
    (cache : Cache) : Except String OptimizeOutcome :=
  match cacheLookup cache (getCacheKey options) with
  | some cached => .ok ⟨cached, cache, 0, 0, 0⟩
  | none =>
    match options.src with
    | .str src =>
      if strStartsWith src ("http://") || strStartsWith src ("https://") then
        let result := remoteMockResult src options.width options.height
        .ok ⟨result, cacheSet cache (getCacheKey options) result, 0, 0, 0⟩
      else if jsFalsy options.width || jsFalsy options.height then
        let result := unoptimizedResult src options.width options.height
        .ok ⟨result, cacheSet cache (getCacheKey options) result, 1, 0, 0⟩
      else
        match t ⟨.str src, options.width, options.height,
            options.format.getD ImageFormat.webp, jsOr options.quality 80⟩ with
        | .ok result =>
          .ok ⟨result, cacheSet cache (getCacheKey options) result, 0, 0, 1⟩
        | .error _ =>
          let result := stringFallbackResult src options.width options.height
          .ok ⟨result, cacheSet cache (getCacheKey options) result, 0, 1, 1⟩
    | .meta m =>
      match t ⟨.meta m, options.width, options.height,
          options.format.getD ImageFormat.webp, jsOr options.quality 80⟩ with
      | .ok result =>
        .ok ⟨result, cacheSet cache (getCacheKey options) result, 0, 0, 1⟩
      | .error _ =>
        let result := metaFallbackResult m options.width options.height
        .ok ⟨result, cacheSet cache (getCacheKey options) result, 0, 1, 1⟩

/-- JavaScript falsiness of the wrapper argument
src : string | ImageMetadata | undefined —
`undefined` and the empty string are falsy. -/
def srcFalsy : Option ImageSrc → Bool
  | none => true
  | some (.str s) => s == ""
  | some (.meta _) => false

/-- The optional overrides accepted by the two wrapper functions. -/
structure WrapperOptions where
  width : Option Nat := none
  height : Option Nat := none
  format : Option ImageFormat := none
  quality : Option Nat := none
  deriving DecidableEq, Repr

/-- Outcome of a wrapper call: `none` when no request was made. -/
structure WrapOutcome where
  result : Option GetImageResult
  cache : Cache
  warns : Nat
  errs : Nat
  calls : Nat
  deriving DecidableEq, Repr

/-- Wrapper (`getOptimizedHeroImage`): null on absent source, otherwise `optimizeImage`
with defaults 1200×630, webp, quality 80. -/
def getOptimizedHeroImage (t : TranscodeFn) (src : Option ImageSrc)
    (options : WrapperOptions) (cache : Cache) : Except String WrapOutcome :=
  if srcFalsy src then .ok ⟨none, cache, 0, 0, 0⟩
  else
    match src with
    | none => .ok ⟨none, cache, 0, 0, 0⟩
    | some s =>
      (optimizeImage t
        { src := s
          width := some (jsOr options.width 1200)
          height := some (jsOr options.height 630)
          format := some (options.format.getD ImageFormat.webp)
          quality := some (jsOr options.quality 80) } cache).map
        (fun o => ⟨some o.result, o.cache, o.warns, o.errs, o.calls⟩)

/-- Wrapper (`getOptimizedCardImage`): null on absent source, otherwise `optimizeImage`
with defaults 400×225, webp, quality 75. -/
def getOptimizedCardImage (t : TranscodeFn) (src : Option ImageSrc)
    (options : WrapperOptions) (cache : Cache) : Except String WrapOutcome :=
  if srcFalsy src then .ok ⟨none, cache, 0, 0, 0⟩
  else
    match src with
    | none => .ok ⟨none, cache, 0, 0, 0⟩
    | some s =>
      (optimizeImage t
        { src := s
          width := some (jsOr options.width 400)
          height := some (jsOr options.height 225)
          format := some (options.format.getD ImageFormat.webp)
          quality := some (jsOr options.quality 75) } cache).map
        (fun o => ⟨some o.result, o.cache, o.warns, o.errs, o.calls⟩)

/-- Validation (`isValidImagePath`): falsy inputs are invalid; remote URLs, absolute
site-relative paths and explicit relative paths are valid. -/
def isValidImagePath (path : Option String) : Bool :=
  match path with
  | none => false
  | some p =>
    if p == "" then false
    else if strStartsWith p ("http://") || strStartsWith p ("https://") then true
    else if strStartsWith p ("/") then true
    else if strStartsWith p ("./") || strStartsWith p ("../") then true
    else false

/-- The effective parameters of a request: the normalized source identifier
and the width/height/format/quality values after sentinel defaulting, exactly
the five components the cache key is built from. -/
def effectiveParams (o : OptimizeImageOptions) :
    String × String × String × String × String :=
  (srcString o.src, natToken o.width, natToken o.height, formatToken o.format,
    natToken o.quality)

/-- The argument record a request hands to the transcoding capability, when
the request routes there (local path with truthy width and height, or
asset-metadata handle); none when the request never reaches the capability. -/
def routedArgs (o : OptimizeImageOptions) : Option TranscodeArgs :=
  match o.src with
  | .str s =>
    if strStartsWith s ("http://") || strStartsWith s ("https://") then none
    else if jsFalsy o.width || jsFalsy o.height then none
    else some ⟨.str s, o.width, o.height, o.format.getD ImageFormat.webp,
      jsOr o.quality 80⟩
  | .meta m => some ⟨.meta m, o.width, o.height, o.format.getD ImageFormat.webp,
      jsOr o.quality 80⟩

/-- The fallback result the module synthesizes for a request routed to the
capability, should the capability throw. -/
def routedFallback (o : OptimizeImageOptions) : Option GetImageResult :=
  match o.src with
  | .str s =>
    if strStartsWith s ("http://") || strStartsWith s ("https://") then none
    else if jsFalsy o.width || jsFalsy o.height then none
    else some (stringFallbackResult s o.width o.height)
  | .meta m => some (metaFallbackResult m o.width o.height)

/-- A transcoding capability that always throws, used by the concrete
witness instances. -/
def errCapability : TranscodeFn := fun _ => Except.error ("boom")

/-- Concrete request: quality supplied explicitly as 0 (falsy). -/
def reqQualityZero : OptimizeImageOptions :=
  { src := ImageSrc.str ("/a"), width := some 4, height := some 2,
    quality := some 0 }

/-- Concrete request: quality left unset, alt set — same effective
parameters as `reqQualityZero`. -/
def reqQualityUnset : OptimizeImageOptions :=
  { src := ImageSrc.str ("/a"), width := some 4, height := some 2,
    alt := some ("x") }

/-- Concrete request: bare local path. -/
def reqLocalBare : OptimizeImageOptions := { src := ImageSrc.str ("/b") }

/-- Concrete request: local path without dimensions. -/
def reqLocalNoDims : OptimizeImageOptions :=
  { src := ImageSrc.str ("/local.png") }

/-- Concrete request: local path with explicit 400×225. -/
def reqLocalSized : OptimizeImageOptions :=
  { src := ImageSrc.str ("/local.png"), width := some 400,
    height := some 225 }

/-- Concrete request: remote URL. -/
def reqRemote : OptimizeImageOptions :=
  { src := ImageSrc.str ("https://example.com/x.jpg") }

/-- Concrete request: imported asset metadata handle. -/
def reqAsset : OptimizeImageOptions :=
  { src := ImageSrc.meta ⟨"/m.png", 800, 600⟩ }

/-- Looking up the key just written finds the written value. -/
theorem cacheLookup_set_self (c : Cache) (k : String) (v : GetImageResult) :
    cacheLookup (cacheSet c k v) k = some v := by
  simp [cacheSet, cacheLookup]

/-- Writing one key leaves every other key's lookup unchanged. -/
theorem cacheLookup_set_other (c : Cache) (k k' : String) (v : GetImageResult)
    (h : k' ≠ k) : cacheLookup (cacheSet c k v) k' = cacheLookup c k' := by
  simp [cacheSet, cacheLookup, Ne.symm h]

/-- A populated key short-circuits: the stored result is returned with no
cache write, no diagnostics and no capability invocation. -/
theorem optimizeImage_hit (t : TranscodeFn) (o : OptimizeImageOptions) (c : Cache)
    (r : GetImageResult) (h : cacheLookup c (getCacheKey o) = some r) :
    optimizeImage t o c = Except.ok ⟨r, c, 0, 0, 0⟩ := by
  simp [optimizeImage, h]

/-- Every call resolves to an outcome that populates its own key with the
returned result and leaves every other key unchanged. -/
theorem optimizeImage_run (t : TranscodeFn) (o : OptimizeImageOptions) (c : Cache) :
    ∃ out : OptimizeOutcome, optimizeImage t o c = Except.ok out ∧
      cacheLookup out.cache (getCacheKey o) = some out.result ∧
      ∀ k, k ≠ getCacheKey o → cacheLookup out.cache k = cacheLookup c k := by
  cases hcl : cacheLookup c (getCacheKey o) with
  | some r =>
    exact ⟨⟨r, c, 0, 0, 0⟩, optimizeImage_hit t o c r hcl, hcl, fun k _ => rfl⟩
  | none =>
    cases hsrc : o.src with
    | str s =>
      cases hrem : (strStartsWith s ("http://") || strStartsWith s ("https://")) with
      | true =>
        refine ⟨⟨remoteMockResult s o.width o.height,
          cacheSet c (getCacheKey o) (remoteMockResult s o.width o.height), 0, 0, 0⟩,
          ?_, cacheLookup_set_self _ _ _, fun k hk => cacheLookup_set_other _ _ _ _ hk⟩
        simp [optimizeImage, hcl, hsrc, hrem]
      | false =>
        cases hwh : (jsFalsy o.width || jsFalsy o.height) with
        | true =>
          refine ⟨⟨unoptimizedResult s o.width o.height,
            cacheSet c (getCacheKey o) (unoptimizedResult s o.width o.height), 1, 0, 0⟩,
            ?_, cacheLookup_set_self _ _ _, fun k hk => cacheLookup_set_other _ _ _ _ hk⟩
          simp [optimizeImage, hcl, hsrc, hrem, hwh]
        | false =>
          cases ht : t ⟨.str s, o.width, o.height, o.format.getD ImageFormat.webp,
              jsOr o.quality 80⟩ with
          | ok r =>
            refine ⟨⟨r, cacheSet c (getCacheKey o) r, 0, 0, 1⟩, ?_,
              cacheLookup_set_self _ _ _, fun k hk => cacheLookup_set_other _ _ _ _ hk⟩
            simp [optimizeImage, hcl, hsrc, hrem, hwh, ht]
          | error e =>
            refine ⟨⟨stringFallbackResult s o.width o.height,
              cacheSet c (getCacheKey o) (stringFallbackResult s o.width o.height), 0, 1, 1⟩,
              ?_, cacheLookup_set_self _ _ _, fun k hk => cacheLookup_set_other _ _ _ _ hk⟩
            simp [optimizeImage, hcl, hsrc, hrem, hwh, ht]
    | meta m =>
      cases ht : t ⟨.meta m, o.width, o.height, o.format.getD ImageFormat.webp,
          jsOr o.quality 80⟩ with
      | ok r =>
        refine ⟨⟨r, cacheSet c (getCacheKey o) r, 0, 0, 1⟩, ?_,
          cacheLookup_set_self _ _ _, fun k hk => cacheLookup_set_other _ _ _ _ hk⟩
        simp [optimizeImage, hcl, hsrc, ht]
      | error e =>
        refine ⟨⟨metaFallbackResult m o.width o.height,
          cacheSet c (getCacheKey o) (metaFallbackResult m o.width o.height), 0, 1, 1⟩,
          ?_, cacheLookup_set_self _ _ _, fun k hk => cacheLookup_set_other _ _ _ _ hk⟩
        simp [optimizeImage, hcl, hsrc, ht]

/-- Claim C1: two requests with identical effective parameters (normalized
source identifier, width, height, format, quality after sentinel defaulting)
map to the same cache key, and a subsequent `optimizeImage` call with the
second request returns the very result stored by the first, without a cache
write or a capability invocation. -/
theorem key_equivalence_of_effective_params (o₁ o₂ : OptimizeImageOptions)
    (t t' : TranscodeFn) (c : Cache) (out : OptimizeOutcome)
    (heff : effectiveParams o₁ = effectiveParams o₂)
    (h : optimizeImage t o₁ c = Except.ok out) :
    getCacheKey o₁ = getCacheKey o₂ ∧
    optimizeImage t' o₂ out.cache = Except.ok ⟨out.result, out.cache, 0, 0, 0⟩ := by
  have hkey : getCacheKey o₁ = getCacheKey o₂ := by
    simp only [effectiveParams, Prod.mk.injEq] at heff
    obtain ⟨h1, h2, h3, h4, h5⟩ := heff
    simp [getCacheKey, h1, h2, h3, h4, h5]
  obtain ⟨out', h', hpost, -⟩ := optimizeImage_run t o₁ c
  rw [h] at h'
  injection h' with he
  cases he
  exact ⟨hkey, optimizeImage_hit t' o₂ out.cache out.result (hkey ▸ hpost)⟩

/-- Claim C2: entries already in the cache survive any call unchanged, and a
second sequential call with the same request returns the identical stored
result with no cache write, no diagnostics and no capability invocation. -/
theorem populated_key_stable (t t' : TranscodeFn) (o : OptimizeImageOptions)
    (c : Cache) (out : OptimizeOutcome)
    (h : optimizeImage t o c = Except.ok out) :
    (∀ k v, cacheLookup c k = some v → cacheLookup out.cache k = some v) ∧
    optimizeImage t' o out.cache = Except.ok ⟨out.result, out.cache, 0, 0, 0⟩ := by
  obtain ⟨out', h', hpost, hframe⟩ := optimizeImage_run t o c
  rw [h] at h'
  injection h' with he
  cases he
  refine ⟨?_, optimizeImage_hit t' o out.cache out.result hpost⟩
  intro k v hkv
  by_cases hk : k = getCacheKey o
  · subst hk
    have hhit := optimizeImage_hit t o c v hkv
    rw [hhit] at h
    injection h with he2
    rw [← he2]
    exact hkv
  · rw [hframe k hk]
    exact hkv

/-- Claim C3: the component absorbs every failure mode — `optimizeImage`
always resolves to a result (never an exception), and the two wrappers always
resolve, returning null only when the source argument was falsy (absent). -/
theorem failures_absorbed (t : TranscodeFn) (o : OptimizeImageOptions) (c : Cache) :
    (∃ out, optimizeImage t o c = Except.ok out) ∧
    (∀ src wo, ∃ w, getOptimizedHeroImage t src wo c = Except.ok w ∧
      (w.result = none → srcFalsy src = true)) ∧
    (∀ src wo, ∃ w, getOptimizedCardImage t src wo c = Except.ok w ∧
      (w.result = none → srcFalsy src = true)) := by
  obtain ⟨out, hout, -, -⟩ := optimizeImage_run t o c
  refine ⟨⟨out, hout⟩, ?_, ?_⟩
  · intro src wo
    cases hf : srcFalsy src with
    | true =>
      refine ⟨⟨none, c, 0, 0, 0⟩, ?_, fun _ => rfl⟩
      simp [getOptimizedHeroImage, hf]
    | false =>
      cases src with
      | none => simp [srcFalsy] at hf
      | some s =>
        obtain ⟨out', hout', -, -⟩ := optimizeImage_run t
          { src := s, width := some (jsOr wo.width 1200),
            height := some (jsOr wo.height 630),
            format := some (wo.format.getD ImageFormat.webp),
            quality := some (jsOr wo.quality 80) } c
        refine ⟨⟨some out'.result, out'.cache, out'.warns, out'.errs, out'.calls⟩,
          ?_, ?_⟩
        · simp [getOptimizedHeroImage, hf, hout', Except.map]
        · intro habs
          exact Option.noConfusion habs
  · intro src wo
    cases hf : srcFalsy src with
    | true =>
      refine ⟨⟨none, c, 0, 0, 0⟩, ?_, fun _ => rfl⟩
      simp [getOptimizedCardImage, hf]
    | false =>
      cases src with
      | none => simp [srcFalsy] at hf
      | some s =>
        obtain ⟨out', hout', -, -⟩ := optimizeImage_run t
          { src := s, width := some (jsOr wo.width 400),
            height := some (jsOr wo.height 225),
            format := some (wo.format.getD ImageFormat.webp),
            quality := some (jsOr wo.quality 75) } c
        refine ⟨⟨some out'.result, out'.cache, out'.warns, out'.errs, out'.calls⟩,
          ?_, ?_⟩
        · simp [getOptimizedCardImage, hf, hout', Except.map]
        · intro habs
          exact Option.noConfusion habs

/-- Claim C7: after any call the cache holds the returned result under the
request's key, and the lookup of every other key is exactly as before the
call — one insertion, no other entry added or modified. -/
theorem single_insertion_and_frame (t : TranscodeFn) (o : OptimizeImageOptions)
    (c : Cache) (out : OptimizeOutcome)
    (h : optimizeImage t o c = Except.ok out) :
    cacheLookup out.cache (getCacheKey o) = some out.result ∧
    ∀ k, k ≠ getCacheKey o → cacheLookup out.cache k = cacheLookup c k := by
  obtain ⟨out', h', hpost, hframe⟩ := optimizeImage_run t o c
  rw [h] at h'
  injection h' with he
  cases he
  exact ⟨hpost, hframe⟩

/-- Claim C8: both wrappers called with an absent source return null, perform
no optimization request, no capability invocation, no diagnostics, and leave
the cache exactly as it was. -/
theorem wrappers_null_on_absent_source (t : TranscodeFn)
    (w₁ w₂ : WrapperOptions) (c : Cache) :
    getOptimizedHeroImage t none w₁ c = Except.ok ⟨none, c, 0, 0, 0⟩ ∧
    getOptimizedCardImage t none w₂ c = Except.ok ⟨none, c, 0, 0, 0⟩ :=
  ⟨rfl, rfl⟩

/-- Claim C9: `isValidImagePath` returns true exactly when the input is a
present string starting with http://, https://, /, ./ or ../, and false
otherwise, including for absent input. -/
theorem isValidImagePath_spec (p : Option String) :
    isValidImagePath p =
      match p with
      | none => false
      | some s =>
        strStartsWith s ("http://") || strStartsWith s ("https://") ||
        strStartsWith s ("/") || strStartsWith s ("./") || strStartsWith s ("../") := by
  cases p with
  | none => rfl
  | some s =>
    by_cases h0 : s = ""
    · subst h0
      decide
    · cases h1 : strStartsWith s ("http://") <;>
      cases h2 : strStartsWith s ("https://") <;>
      cases h3 : strStartsWith s ("/") <;>
      cases h4 : strStartsWith s ("./") <;>
      cases h5 : strStartsWith s ("../") <;>
      simp [isValidImagePath, h0, h1, h2, h3, h4, h5]

/-- Claim C10: the alt option influences neither the cache key nor any part
of the call's outcome — two requests differing only in alt produce the same
key, the same result, the same cache and the same diagnostics. -/
theorem alt_noninterference (t : TranscodeFn) (c : Cache)
    (o : OptimizeImageOptions) (a : Option String) :
    getCacheKey { o with alt := a } = getCacheKey o ∧
    optimizeImage t { o with alt := a } c = optimizeImage t o c :=
  ⟨rfl, rfl⟩

/-- Claim C4: a local path request lacking explicit width and height emits
exactly one diagnostic warning, never invokes the transcoding capability, and
stores and returns a pass-through result with default dimensions 1200×630 and
an empty source-set. -/
theorem local_missing_dims_degradation (t : TranscodeFn)
    (o : OptimizeImageOptions) (c : Cache) (s : String)
    (hmiss : cacheLookup c (getCacheKey o) = none)
    (hsrc : o.src = ImageSrc.str s)
    (hrem : (strStartsWith s ("http://") || strStartsWith s ("https://")) = false)
    (hw : o.width = none) (hh : o.height = none) :
    optimizeImage t o c =
      Except.ok ⟨unoptimizedResult s o.width o.height,
        cacheSet c (getCacheKey o) (unoptimizedResult s o.width o.height), 1, 0, 0⟩ ∧
    (unoptimizedResult s o.width o.height).attributes = ⟨1200, 630⟩ ∧
    (unoptimizedResult s o.width o.height).srcSet = ⟨[], ""⟩ := by
  refine ⟨?_, ?_, rfl⟩
  · simp [optimizeImage, hmiss, hsrc, hrem, hw, hh, jsFalsy]
  · rw [hw, hh]
    rfl

/-- Claim C6: a remote URL request never invokes the transcoding capability
and stores and returns a pass-through result whose src is the input URL, with
the requested dimensions or defaults 1200×630 and an empty source-set. -/
theorem remote_passthrough (t : TranscodeFn) (o : OptimizeImageOptions)
    (c : Cache) (s : String)
    (hmiss : cacheLookup c (getCacheKey o) = none)
    (hsrc : o.src = ImageSrc.str s)
    (hrem : (strStartsWith s ("http://") || strStartsWith s ("https://")) = true) :
    optimizeImage t o c =
      Except.ok ⟨remoteMockResult s o.width o.height,
        cacheSet c (getCacheKey o) (remoteMockResult s o.width o.height), 0, 0, 0⟩ ∧
    (remoteMockResult s o.width o.height).src = s ∧
    (remoteMockResult s o.width o.height).attributes =
      ⟨jsOr o.width 1200, jsOr o.height 630⟩ ∧
    (remoteMockResult s o.width o.height).srcSet = ⟨[], ""⟩ := by
  exact ⟨by simp [optimizeImage, hmiss, hsrc, hrem], rfl, rfl, rfl⟩

/-- Claim C5: when a request routed to the transcoding capability hits a
throwing capability, the call logs the error once, invokes the capability
once, and stores and returns a fallback result with the requested dimensions
(else the asset's intrinsic dimensions) and an empty source-set; a second
identical call returns that stored result without invoking the capability or
logging again. -/
theorem transcode_failure_cached_fallback (t t' : TranscodeFn)
    (o : OptimizeImageOptions) (c : Cache) (args : TranscodeArgs)
    (r : GetImageResult) (e : String)
    (hmiss : cacheLookup c (getCacheKey o) = none)
    (hargs : routedArgs o = some args)
    (hfb : routedFallback o = some r)
    (hthrow : t args = Except.error e) :
    optimizeImage t o c =
      Except.ok ⟨r, cacheSet c (getCacheKey o) r, 0, 1, 1⟩ ∧
    r.srcSet = ⟨[], ""⟩ ∧
    (∀ s, o.src = ImageSrc.str s →
      r.attributes = ⟨o.width.getD 0, o.height.getD 0⟩) ∧
    (∀ m, o.src = ImageSrc.meta m →
      r.attributes = ⟨jsOr o.width m.width, jsOr o.height m.height⟩) ∧
    optimizeImage t' o (cacheSet c (getCacheKey o) r) =
      Except.ok ⟨r, cacheSet c (getCacheKey o) r, 0, 0, 0⟩ := by
  cases hsrc : o.src with
  | str s =>
    simp only [routedArgs, hsrc] at hargs
    simp only [routedFallback, hsrc] at hfb
    cases hrem : (strStartsWith s ("http://") || strStartsWith s ("https://")) with
    | true =>
      simp [hrem] at hargs
    | false =>
      cases hwh : (jsFalsy o.width || jsFalsy o.height) with
      | true =>
        simp [hrem, hwh] at hargs
      | false =>
        simp only [hrem, hwh, Bool.false_eq_true, if_false, Option.some.injEq] at hargs hfb
        subst hargs
        subst hfb
        refine ⟨?_, rfl, fun _ _ => rfl, ?_, ?_⟩
        · simp [optimizeImage, hmiss, hsrc, hrem, hwh, hthrow]
        · intro m hm
          exact ImageSrc.noConfusion hm
        · exact optimizeImage_hit t' o _ _ (cacheLookup_set_self _ _ _)
  | meta m =>
    simp only [routedArgs, hsrc, Option.some.injEq] at hargs
    simp only [routedFallback, hsrc, Option.some.injEq] at hfb
    subst hargs
    subst hfb
    refine ⟨?_, rfl, ?_, ?_, ?_⟩
    · simp [optimizeImage, hmiss, hsrc, hthrow]
    · intro s hs
      exact ImageSrc.noConfusion hs
    · intro m' hm'
      injection hm' with hmm
      subst hmm
      rfl
    · exact optimizeImage_hit t' o _ _ (cacheLookup_set_self _ _ _)

/-- Witness for claim C1: a request with quality explicitly 0 and a request
with quality unset (and a different alt) have the same effective parameters
and therefore the same cache key. -/
theorem key_equivalence_of_effective_params_witness :
    effectiveParams reqQualityZero = effectiveParams reqQualityUnset ∧
    optimizeImage errCapability reqQualityZero [] =
      Except.ok ⟨stringFallbackResult ("/a") (some 4) (some 2),
        cacheSet [] (getCacheKey reqQualityZero)
          (stringFallbackResult ("/a") (some 4) (some 2)), 0, 1, 1⟩ ∧
    getCacheKey reqQualityZero = getCacheKey reqQualityUnset :=
  ⟨by decide, rfl,
    (key_equivalence_of_effective_params reqQualityZero reqQualityUnset
      errCapability errCapability []
      ⟨stringFallbackResult ("/a") (some 4) (some 2),
        cacheSet [] (getCacheKey reqQualityZero)
          (stringFallbackResult ("/a") (some 4) (some 2)), 0, 1, 1⟩
      (by decide) rfl).1⟩

/-- Witness for claim C2: a concrete first call populates the cache, and the
second identical call returns the stored result with no write, no
diagnostics and no capability invocation. -/
theorem populated_key_stable_witness :
    optimizeImage errCapability reqLocalBare [] =
      Except.ok ⟨unoptimizedResult ("/b") none none,
        cacheSet [] (getCacheKey reqLocalBare)
          (unoptimizedResult ("/b") none none), 1, 0, 0⟩ ∧
    optimizeImage errCapability reqLocalBare
        (cacheSet [] (getCacheKey reqLocalBare)
          (unoptimizedResult ("/b") none none)) =
      Except.ok ⟨unoptimizedResult ("/b") none none,
        cacheSet [] (getCacheKey reqLocalBare)
          (unoptimizedResult ("/b") none none), 0, 0, 0⟩ :=
  ⟨rfl,
    (populated_key_stable errCapability errCapability reqLocalBare []
      ⟨unoptimizedResult ("/b") none none,
        cacheSet [] (getCacheKey reqLocalBare)
          (unoptimizedResult ("/b") none none), 1, 0, 0⟩ rfl).2⟩

/-- Witness for claim C4: optimizing a local path with no dimensions warns
once, skips the capability, and stores the 1200×630 pass-through result. -/
theorem local_missing_dims_degradation_witness :
    optimizeImage errCapability reqLocalNoDims [] =
      Except.ok ⟨unoptimizedResult ("/local.png") none none,
        cacheSet [] (getCacheKey reqLocalNoDims)
          (unoptimizedResult ("/local.png") none none), 1, 0, 0⟩ ∧
    (unoptimizedResult ("/local.png") none none).attributes = ⟨1200, 630⟩ :=
  ⟨(local_missing_dims_degradation errCapability reqLocalNoDims []
      ("/local.png") rfl rfl (by decide) rfl rfl).1,
    (local_missing_dims_degradation errCapability reqLocalNoDims []
      ("/local.png") rfl rfl (by decide) rfl rfl).2.1⟩

/-- Witness for claim C5: a throwing capability on a local path with explicit
400×225 yields the fallback result with those dimensions, one error log and
one invocation; the second identical call hits the cache instead. -/
theorem transcode_failure_cached_fallback_witness :
    optimizeImage errCapability reqLocalSized [] =
      Except.ok ⟨stringFallbackResult ("/local.png") (some 400) (some 225),
        cacheSet [] (getCacheKey reqLocalSized)
          (stringFallbackResult ("/local.png") (some 400) (some 225)), 0, 1, 1⟩ ∧
    optimizeImage errCapability reqLocalSized
        (cacheSet [] (getCacheKey reqLocalSized)
          (stringFallbackResult ("/local.png") (some 400) (some 225))) =
      Except.ok ⟨stringFallbackResult ("/local.png") (some 400) (some 225),
        cacheSet [] (getCacheKey reqLocalSized)
          (stringFallbackResult ("/local.png") (some 400) (some 225)), 0, 0, 0⟩ :=
  ⟨(transcode_failure_cached_fallback errCapability errCapability reqLocalSized []
      ⟨ImageSrc.str ("/local.png"), some 400, some 225, ImageFormat.webp, 80⟩
      (stringFallbackResult ("/local.png") (some 400) (some 225)) ("boom")
      rfl (by decide) (by decide) rfl).1,
    (transcode_failure_cached_fallback errCapability errCapability reqLocalSized []
      ⟨ImageSrc.str ("/local.png"), some 400, some 225, ImageFormat.webp, 80⟩
      (stringFallbackResult ("/local.png") (some 400) (some 225)) ("boom")
      rfl (by decide) (by decide) rfl).2.2.2.2⟩

/-- Witness for claim C6: a remote URL request returns the pass-through
result with the input URL, default 1200×630, an empty source-set and no
capability invocation. -/
theorem remote_passthrough_witness :
    optimizeImage errCapability reqRemote [] =
      Except.ok ⟨remoteMockResult ("https://example.com/x.jpg") none none,
        cacheSet [] (getCacheKey reqRemote)
          (remoteMockResult ("https://example.com/x.jpg") none none), 0, 0, 0⟩ ∧
    (remoteMockResult ("https://example.com/x.jpg") none none).attributes =
      ⟨1200, 630⟩ :=
  ⟨(remote_passthrough errCapability reqRemote []
      ("https://example.com/x.jpg") rfl rfl (by decide)).1,
    (remote_passthrough errCapability reqRemote []
      ("https://example.com/x.jpg") rfl rfl (by decide)).2.2.1⟩

/-- Witness for claim C7: a concrete call through the asset-metadata branch
stores its returned result under the request's key. -/
theorem single_insertion_and_frame_witness :
    optimizeImage errCapability reqAsset [] =
      Except.ok ⟨metaFallbackResult ⟨"/m.png", 800, 600⟩ none none,
        cacheSet [] (getCacheKey reqAsset)
          (metaFallbackResult ⟨"/m.png", 800, 600⟩ none none), 0, 1, 1⟩ ∧
    cacheLookup
        (cacheSet [] (getCacheKey reqAsset)
          (metaFallbackResult ⟨"/m.png", 800, 600⟩ none none))
        (getCacheKey reqAsset) =
      some (metaFallbackResult ⟨"/m.png", 800, 600⟩ none none) :=
  ⟨rfl,
    (single_insertion_and_frame errCapability reqAsset []
      ⟨metaFallbackResult ⟨"/m.png", 800, 600⟩ none none,
        cacheSet [] (getCacheKey reqAsset)
          (metaFallbackResult ⟨"/m.png", 800, 600⟩ none none), 0, 1, 1⟩
      rfl).1⟩

end ImageOpt
